import Mathlib

/-! # A shallow embedding of `src/matchmaking.py`

This file models the matchmaking engine of the repository (the single
source file `src/matchmaking.py`) as executable Lean definitions and
proves properties of those definitions.

Modelling conventions:
* Python dictionaries holding configuration are modelled as functions
  `String → Option PyVal`; a key bound to Python `None` is `some PyVal.none`,
  an absent key is `Option.none` (this matches `dict.get`'s behaviour).
* `time.time()` is modelled by an explicit `now : Int` parameter (the code
  only ever compares relative deltas in seconds).
* `random.choice(xs)` is modelled by an index supplied through an `Rnd`
  record; `random.choice` of an empty sequence raises `IndexError`, which the
  model reproduces.  Quantifying theorems over all `Rnd` values covers every
  possible sequence of random draws.
* Fallible Python code is modelled in the `Except Exc` monad; a method that
  mutates `self` and may let an exception escape returns the final state
  paired with `Option Exc` (Python leaves already-performed field writes in
  place when an exception propagates).
* The external lichess client `self.li` is an opaque collaborator, modelled
  as a record of functions that may return values or raise. The response of
  `li.challenge` is represented by the challenge id extracted from it
  (possibly absent); inside `create_challenge` every client failure is
  caught by the blanket `except Exception`, so only this observation
  matters.
-/

namespace LichessBot

/-- Kinds of Python exceptions relevant to `matchmaking.py`: an
`requests.exceptions.HTTPError` carrying a status code, `IndexError` (raised
by `random.choice` on an empty sequence), `TypeError` (wrong arity /
unsupported operand types), `KeyError`, `AttributeError`, and a stand-in for
any other exception class the external client may raise. -/
inductive Exc where
  | httpError (status : Nat)
  | indexError
  | typeError
  | keyError
  | attributeError
  | other
deriving DecidableEq, Repr

/-- Python values occurring in the matchmaking configuration dictionaries:
`None`, booleans, integers, strings and (possibly nested) lists. -/
inductive PyVal where
  | none
  | bool (b : Bool)
  | int (n : Int)
  | str (s : String)
  | list (l : List PyVal)
deriving Repr

mutual

/-- Python `a == b` for the values above.  Python treats `bool` as an `int`
subclass, so `True == 1`; values of otherwise different types compare
unequal (never raising). -/
def pyBEq : PyVal → PyVal → Bool
  | PyVal.none, PyVal.none => true
  | PyVal.int a, PyVal.int b => a == b
  | PyVal.bool a, PyVal.bool b => a == b
  | PyVal.bool a, PyVal.int b => (if a then (1 : Int) else 0) == b
  | PyVal.int a, PyVal.bool b => a == (if b then (1 : Int) else 0)
  | PyVal.str a, PyVal.str b => a == b
  | PyVal.list a, PyVal.list b => pyListBEq a b
  | _, _ => false

/-- Elementwise Python `==` on lists. -/
def pyListBEq : List PyVal → List PyVal → Bool
  | [], [] => true
  | a :: as, b :: bs => pyBEq a b && pyListBEq as bs
  | _, _ => false

end

/-- Python truthiness for the values above. -/
def pyTruthy : PyVal → Bool
  | PyVal.none => false
  | PyVal.bool b => b
  | PyVal.int n => decide (n ≠ 0)
  | PyVal.str s => !s.isEmpty
  | PyVal.list l => !l.isEmpty

/-- Python `a or b`: returns `a` if `a` is truthy, otherwise `b`. -/
def pyOr (a b : PyVal) : PyVal :=
  if pyTruthy a then a else b

/-- A Python dictionary with string keys, as used for the configuration.
An absent key maps to `Option.none`; a key present with value `None` maps
to `some PyVal.none`. -/
def Dict : Type := String → Option PyVal

/-- `d.get(k)` — dictionary lookup defaulting to Python `None`. -/
def dGet (d : Dict) (k : String) : PyVal :=
  (d k).getD PyVal.none

/-- `d.get(k, v)` — dictionary lookup with an explicit default. -/
def dGetD (d : Dict) (k : String) (v : PyVal) : PyVal :=
  (d k).getD v

/-- Interpret a Python value as an integer the way Python arithmetic does:
`bool` is an `int` subclass (`True == 1`, `False == 0`). -/
def pyIntish : PyVal → Option Int
  | PyVal.int n => some n
  | PyVal.bool b => some (if b then 1 else 0)
  | _ => Option.none

/-- Python `a + b` for the value shapes reachable from the configuration
schema: numeric addition, string concatenation and list concatenation;
any other operand combination raises `TypeError`. -/
def pyAdd (a b : PyVal) : Except Exc PyVal :=
  match pyIntish a, pyIntish b with
  | some x, some y => Except.ok (PyVal.int (x + y))
  | _, _ =>
    match a, b with
    | PyVal.str x, PyVal.str y => Except.ok (PyVal.str (x ++ y))
    | PyVal.list x, PyVal.list y => Except.ok (PyVal.list (x ++ y))
    | _, _ => Except.error Exc.typeError

/-- Python `a * b` for the shapes reachable here: numeric product, and
sequence repetition `str * int` / `list * int` (negative counts give the
empty sequence); anything else raises `TypeError`. -/
def pyMul (a b : PyVal) : Except Exc PyVal :=
  match pyIntish a, pyIntish b with
  | some x, some y => Except.ok (PyVal.int (x * y))
  | _, _ =>
    match a, b with
    | PyVal.str s, PyVal.int n =>
        Except.ok (PyVal.str (String.join (List.replicate n.toNat s)))
    | PyVal.list l, PyVal.int n =>
        Except.ok (PyVal.list (List.flatten (List.replicate n.toNat l)))
    | _, _ => Except.error Exc.typeError

/-- Python `a < b` for the shapes reachable here: numeric and string
comparisons succeed, mixed-type comparisons raise `TypeError`. -/
def pyLt (a b : PyVal) : Except Exc Bool :=
  match pyIntish a, pyIntish b with
  | some x, some y => Except.ok (decide (x < y))
  | _, _ =>
    match a, b with
    | PyVal.str x, PyVal.str y => Except.ok (decide (x < y))
    | _, _ => Except.error Exc.typeError

/-- Python `a <= b`, analogous to `pyLt`. -/
def pyLe (a b : PyVal) : Except Exc Bool :=
  match pyIntish a, pyIntish b with
  | some x, some y => Except.ok (decide (x ≤ y))
  | _, _ =>
    match a, b with
    | PyVal.str x, PyVal.str y => Except.ok (decide (x ≤ y))
    | _, _ => Except.error Exc.typeError

/-- Substring test, used to model Python `s1 in s2` on strings. -/
def strContainsSub (hay needle : String) : Bool :=
  hay.toList.tails.any (fun u => needle.toList.isPrefixOf u)

/-- Python `x in c` for the container shapes reachable here: membership in a
list (elementwise `==`), substring test in a string, `TypeError` otherwise. -/
def pyIn (x c : PyVal) : Except Exc Bool :=
  match c with
  | PyVal.list l => Except.ok (l.any (fun y => pyBEq y x))
  | PyVal.str s =>
    match x with
    | PyVal.str t => Except.ok (strContainsSub s t)
    | _ => Except.error Exc.typeError
  | _ => Except.error Exc.typeError

/-- `random.choice(l)` where the draw is resolved by an index `i`: raises
`IndexError` on an empty sequence, otherwise returns the element at
`i % l.length`.  Ranging over all `i` ranges over all possible draws. -/
def pyChoice (i : Nat) : List α → Except Exc α
  | [] => Except.error Exc.indexError
  | a :: as =>
      Except.ok ((a :: as).get ⟨i % (as.length + 1), Nat.mod_lt i (Nat.succ_pos as.length)⟩)

theorem pyChoice_ok_of_ne_nil {l : List α} (i : Nat) (h : l ≠ []) :
    ∃ v, pyChoice i l = Except.ok v ∧ v ∈ l := by
  match l with
  | [] => exact absurd rfl h
  | a :: as => exact ⟨_, rfl, List.get_mem _ _ _⟩

theorem pyChoice_mem {l : List α} {i : Nat} {v : α}
    (h : pyChoice i l = Except.ok v) : v ∈ l := by
  match l with
  | [] => simp [pyChoice] at h
  | a :: as =>
      simp only [pyChoice, Except.ok.injEq] at h
      exact h ▸ List.get_mem _ _ _

theorem pyChoice_singleton (i : Nat) (a : α) :
    pyChoice i [a] = Except.ok a := by
  have h0 : i % 1 = 0 := Nat.mod_one i
  simp [pyChoice, h0]

/-- One performance record of an online bot, as consumed by
`is_suitable_opponent`: the code reads `perf.get("rating", 0)` and
`perf.get("games", 0)`, so each field may be absent. -/
structure Perf where
  rating : Option Int
  games : Option Int
deriving DecidableEq, Repr

/-- An online bot as returned by `li.get_online_bots()`; the code reads
`bot["username"]`, `bot.get("disabled")`, `bot.get("tosViolation")` and
`bot["perfs"]` (a dictionary from game type to performance record). -/
structure Bot where
  username : String
  disabled : Bool
  tosViolation : Bool
  perfs : List (String × Perf)
deriving DecidableEq, Repr

/-- `bot["perfs"].get(game_type, \x7b\x7d)`: the key is whatever value
`game_type` resolved to.  A string key is looked up (missing keys yield the
empty record, whose `get`s then default); an unhashable key (a list) raises
`TypeError`; any other hashable key simply misses. -/
def perfGet (ps : List (String × Perf)) (k : PyVal) : Except Exc Perf :=
  match k with
  | PyVal.str s => Except.ok ((ps.lookup s).getD ⟨Option.none, Option.none⟩)
  | PyVal.list _ => Except.error Exc.typeError
  | _ => Except.ok ⟨Option.none, Option.none⟩

/-- The parameter dictionary passed to `li.challenge` by `create_challenge`:
`rated` and `variant` always, then either `days` or
`clock.limit`/`clock.increment`. -/
structure ChallengeParams where
  rated : Bool
  variant : PyVal
  days : Option PyVal
  clockLimit : Option PyVal
  clockIncrement : Option PyVal
deriving Repr

/-- The opaque external client `self.li`.  Each operation may return a value
or raise.  `challengeCall` models `li.challenge(username, params)` by the
challenge id extracted from its response via
`response.get("challenge", \x7b\x7d).get("id")` (`Option.none` when the
response carries no identifier); this is the only observation of the
response the code makes, and it is made inside a `try` that catches every
exception. -/
structure Client where
  challengeCall : String → ChallengeParams → Except Exc (Option String)
  cancel : String → Except Exc Unit
  get_online_bots : Except Exc (List Bot)

/-- Indices resolving each `random.choice` call site of the module. -/
structure Rnd where
  iCfg : Nat
  iMode : Nat
  iVariant : Nat
  iTime : Nat
  iInc : Nat
  iDays : Nat
  iBot : Nat
  iCorr : Nat

/-- The state of a `Matchmaking` instance: the fields assigned in
`__init__` and mutated by the methods.  Timestamps are in seconds. -/
structure Matchmaking where
  variants : List String
  username : String
  allow_matchmaking : Bool
  challenge_timeout : Int
  rate_limit_timeout : Int
  cfgs : List Dict
  last_challenge_created : Int
  last_game_ended : Int
  last_challenge_rate_limited : Int
  challenge_id : Option String

/-- `self.challenge_expire_time`, set to the constant `25` in `__init__`
and never reassigned. -/
def challenge_expire_time : Int := 25

/-- Truthiness of `self.challenge_id` (`None` and the empty string are
falsy). -/
def truthyId : Option String → Bool
  | Option.none => false
  | some s => !s.isEmpty

/-- `should_create_challenge` (lines 41–50): a pure decision over the state
and the current time. -/
def should_create_challenge (M : Matchmaking) (now : Int) : Bool :=
  if !M.allow_matchmaking then false
  else if truthyId M.challenge_id then false
  else if now < M.last_game_ended + M.challenge_timeout then false
  else if now < M.last_challenge_rate_limited + M.rate_limit_timeout then false
  else true

/-- `cancel_expired_challenges` (lines 35–39).  The result pairs the final
state with the exception that propagates, if any: when `li.cancel` raises,
the assignment `self.challenge_id = None` on line 39 is never executed, so
the state is returned unchanged alongside the exception. -/
def cancel_expired_challenges (M : Matchmaking) (li : Client) (now : Int) :
    Matchmaking × Option Exc :=
  if truthyId M.challenge_id = true ∧
      M.last_challenge_created + challenge_expire_time < now then
    match li.cancel (M.challenge_id.getD "") with
    | Except.ok _ => ({ M with challenge_id := Option.none }, Option.none)
    | Except.error e => (M, some e)
  else (M, Option.none)

/-- The body of `get_time` (lines 80–86), as the `def` is written: look the
name up in the configuration, return `None` for `None`, wrap a bare `int`
(including `bool`) into a singleton list, and `random.choice` from the
resulting sequence (`IndexError` on an empty list or string, `TypeError`
when the value is not a sequence). -/
def get_time (i : Nat) (cfg : Dict) (name : String) (default : PyVal) :
    Except Exc PyVal :=
  match dGetD cfg name default with
  | PyVal.none => Except.ok PyVal.none
  | PyVal.int n => Except.ok (PyVal.int n)
  | PyVal.bool b => Except.ok (PyVal.bool b)
  | PyVal.list l => pyChoice i l
  | PyVal.str s =>
      match pyChoice i s.toList with
      | Except.ok c => Except.ok (PyVal.str (String.mk [c]))
      | Except.error e => Except.error e

/-- The calls `self.get_time(cfg, name, default)` on lines 97–98 of
`choose_opponent`.  `get_time` is declared on line 80 WITHOUT a `self`
parameter, yet it is invoked as a bound method: Python passes the instance
as a fourth positional argument to a function accepting at most three, so
the call raises `TypeError` before the body of `get_time` ever runs. -/
def get_time_bound_call3 (_M : Matchmaking) (_cfg : Dict) (_name : String)
    (_default : PyVal) : Except Exc PyVal :=
  Except.error Exc.typeError

/-- The call `self.get_time(cfg, "challenge_days")` on line 99: with three
positional arguments (instance included) the arity matches, but the
parameters bind as `cfg := self`, `name := cfg`, `default := "challenge_days"`,
so the body evaluates `self.get(...)` on the `Matchmaking` instance, which
has no `get` attribute, raising `AttributeError`. -/
def get_time_bound_call2 (_M : Matchmaking) (_cfg : Dict) (_name : String) :
    Except Exc PyVal :=
  Except.error Exc.attributeError

/-- The values resolved by lines 89–117 of `choose_opponent`, captured by
the local variables of the source: challenge mode, variant, time controls,
the derived `game_type`, and the rating window and ToS flag read from the
configuration. -/
structure ResolvedParams where
  mode : PyVal
  variant : PyVal
  base_time : PyVal
  increment : PyVal
  days : PyVal
  game_type : PyVal
  min_rating : PyVal
  max_rating : PyVal
  allow_tos_violation : PyVal
deriving Repr

/-- Lines 89–117 of `choose_opponent`: resolve mode and variant (drawing at
random where configured as `"random"`), resolve the time controls through
the `self.get_time(...)` bound-method calls, derive `game_type` from the
variant, `days` and the expected game duration, and read the rating window
and the ToS flag.  Because the `self.get_time` call on line 97 raises
`TypeError` (see `get_time_bound_call3`), this computation always fails
there, before any later step runs. -/
def resolveParams (M : Matchmaking) (rnd : Rnd) (cfg : Dict) :
    Except Exc ResolvedParams := do
  let mode0 := pyOr (dGet cfg "challenge_mode") (PyVal.str "random")
  let mode ←
    if pyBEq mode0 (PyVal.str "random") then
      pyChoice rnd.iMode [PyVal.str "casual", PyVal.str "rated"]
    else pure mode0
  let variant0 := pyOr (dGet cfg "challenge_variant") (PyVal.str "random")
  let variant ←
    if pyBEq variant0 (PyVal.str "random") then do
      let v ← pyChoice rnd.iVariant M.variants
      pure (PyVal.str v)
    else pure variant0
  let base_time ← get_time_bound_call3 M cfg "challenge_initial_time" (PyVal.int 60)
  let increment ← get_time_bound_call3 M cfg "challenge_increment" (PyVal.int 2)
  let days ← get_time_bound_call2 M cfg "challenge_days"
  let p ← pyMul increment (PyVal.int 40)
  let game_duration ← pyAdd base_time p
  let game_type ←
    if !pyBEq variant (PyVal.str "standard") then pure variant
    else if pyTruthy days then pure (PyVal.str "correspondence")
    else do
      let b1 ← pyLt game_duration (PyVal.int 179)
      if b1 then pure (PyVal.str "bullet")
      else do
        let b2 ← pyLt game_duration (PyVal.int 479)
        if b2 then pure (PyVal.str "blitz")
        else do
          let b3 ← pyLt game_duration (PyVal.int 1499)
          if b3 then pure (PyVal.str "rapid") else pure (PyVal.str "classical")
  pure
    { mode := mode, variant := variant, base_time := base_time,
      increment := increment, days := days, game_type := game_type,
      min_rating := pyOr (dGet cfg "opponent_min_rating") (PyVal.int 600),
      max_rating := pyOr (dGet cfg "opponent_max_rating") (PyVal.int 4000),
      allow_tos_violation := dGetD cfg "opponent_allow_tos_violation" (PyVal.bool true) }

/-- The nested predicate `is_suitable_opponent` (lines 119–126), with the
captured locals passed explicitly.  The conjunction short-circuits exactly
as Python's `and` chain does: `cfg["opponent_blocklist"]` (which raises
`KeyError` when the key is absent) is only evaluated once the earlier
conjuncts hold, and the rating comparisons only once `games > 0`. -/
def is_suitable_opponent (me : String) (cfg : Dict) (ps : ResolvedParams)
    (bot : Bot) : Except Exc Bool := do
  let perf ← perfGet bot.perfs ps.game_type
  if bot.username = me then pure false
  else if bot.disabled then pure false
  else if !(pyTruthy ps.allow_tos_violation || !bot.tosViolation) then pure false
  else do
    let bl ←
      match cfg "opponent_blocklist" with
      | some v => pure v
      | Option.none => Except.error Exc.keyError
    let inBl ← pyIn (PyVal.str bot.username) bl
    if inBl then pure false
    else if perf.games.getD 0 ≤ 0 then pure false
    else do
      let lo ← pyLe ps.min_rating (PyVal.int (perf.rating.getD 0))
      if !lo then pure false
      else pyLe (PyVal.int (perf.rating.getD 0)) ps.max_rating

/-- `list(filter(p, l))` where the predicate may raise: elements are tested
left to right and the first exception propagates. -/
def filterE (p : α → Except Exc Bool) : List α → Except Exc (List α)
  | [] => Except.ok []
  | a :: as => do
      let keep ← p a
      let rest ← filterE p as
      pure (if keep then a :: rest else rest)

/-- `choose_opponent` (lines 88–132): resolve the challenge parameters,
fetch the online bots from the client, filter them through
`is_suitable_opponent`, and draw one of the survivors at random (`None`
when none survive).  Returns the same tuple as the source:
`(bot_username, base_time, increment, days, variant, mode)`. -/
def choose_opponent (M : Matchmaking) (li : Client) (rnd : Rnd) (cfg : Dict) :
    Except Exc (Option String × PyVal × PyVal × PyVal × PyVal × PyVal) := do
  let ps ← resolveParams M rnd cfg
  let online_bots ← li.get_online_bots
  let suitable ← filterE (is_suitable_opponent M.username cfg ps) online_bots
  let bot_username ←
    match suitable with
    | [] => pure (Option.none : Option String)
    | b :: bs => do
        let chosen ← pyChoice rnd.iBot (b :: bs)
        pure (some chosen.username)
  pure (bot_username, ps.base_time, ps.increment, ps.days, ps.variant, ps.mode)

/-- `create_challenge` (lines 52–78).  The choice between correspondence
play and clock play happens BEFORE the `try` block: when `days`,
`base_time` and `increment` are all falsy, `random.choice([])` raises
`IndexError`, and that exception propagates to the caller.  Everything from
the `li.challenge` call onwards sits inside `try: ... except Exception:`,
so every client failure is swallowed into a `None` result; a response
without an identifier is logged and its (absent) id returned. -/
def create_challenge (li : Client) (rnd : Rnd) (username : String)
    (base_time increment days variant mode : PyVal) :
    Except Exc (Option String) := do
  let rated := pyBEq mode (PyVal.str "rated")
  let play_correspondence : List Bool :=
    (if pyTruthy days then [true] else []) ++
      (if pyTruthy base_time || pyTruthy increment then [false] else [])
  let corr ← pyChoice rnd.iCorr play_correspondence
  let params : ChallengeParams :=
    if corr then
      { rated := rated, variant := variant, days := some days,
        clockLimit := Option.none, clockIncrement := Option.none }
    else
      { rated := rated, variant := variant, days := Option.none,
        clockLimit := some base_time, clockIncrement := some increment }
  match li.challengeCall username params with
  | Except.ok cid => pure cid
  | Except.error _ => pure Option.none

/-- `challenge` (lines 134–150).  A profile is drawn at random, then
`choose_opponent` runs OUTSIDE the `try` block, so any exception it raises
propagates.  Inside the `try`, a found opponent is challenged via
`create_challenge`; on normal return the state records the creation time
and the (possibly absent) challenge id.  The `except HTTPError` handler
backs off on status 429 and swallows other `HTTPError`s; any other
exception class propagates.  The final state is paired with the
propagating exception, if any. -/
def challenge (M : Matchmaking) (li : Client) (rnd : Rnd) (now : Int) :
    Matchmaking × Option Exc :=
  match pyChoice rnd.iCfg M.cfgs with
  | Except.error e => (M, some e)
  | Except.ok cfg =>
    match choose_opponent M li rnd cfg with
    | Except.error e => (M, some e)
    | Except.ok (bot_username, base_time, increment, days, variant, mode) =>
      let r : Except Exc (Option String) :=
        match bot_username with
        | some u => create_challenge li rnd u base_time increment days variant mode
        | Option.none => Except.ok Option.none
      match r with
      | Except.ok cid =>
          ({ M with last_challenge_created := now, challenge_id := cid },
            Option.none)
      | Except.error (Exc.httpError status) =>
          if status = 429 then
            ({ M with last_challenge_rate_limited := now }, Option.none)
          else (M, Option.none)
      | Except.error e => (M, some e)

/-- The body of the profile-merging loop in `__init__` (lines 23–26): build
`merged_config = \x7b**matchmaking_cfg, **cfg\x7d` (override entries win),
then replace `opponent_blocklist` by the concatenation
`matchmaking_cfg.get("opponent_blocklist", []) + cfg.get("opponent_blocklist", [])`. -/
def mergedProfile (matchmaking_cfg cfg : Dict) : Except Exc Dict := do
  let merged : Dict := fun k =>
    match cfg k with
    | some v => some v
    | Option.none => matchmaking_cfg k
  let bl ← pyAdd (dGetD matchmaking_cfg "opponent_blocklist" (PyVal.list []))
      (dGetD cfg "opponent_blocklist" (PyVal.list []))
  pure (fun k => if k = "opponent_blocklist" then some bl else merged k)

@[simp] theorem ok_bind {α β : Type} {a : α} {f : α → Except Exc β} :
    (Except.ok a >>= f) = f a := rfl

@[simp] theorem error_bind {α β : Type} {e : Exc} {f : α → Except Exc β} :
    ((Except.error e : Except Exc α) >>= f) = Except.error e := rfl

theorem bind_eq_ok {α β : Type} {x : Except Exc α} {f : α → Except Exc β} {b : β}
    (h : x >>= f = Except.ok b) : ∃ a, x = Except.ok a ∧ f a = Except.ok b := by
  cases x with
  | error e => simp at h
  | ok a => exact ⟨a, rfl, h⟩

/-- C1: `should_create_challenge()` is a pure decision (its Lean type is a
plain function into `Bool`, with no state or client access) that returns
`true` exactly when matchmaking is enabled, no challenge is active, at
least `challenge_timeout` seconds have elapsed since the last game ended,
and at least `rate_limit_timeout` seconds have elapsed since the last
rate-limit rejection; on any state with `allow_matchmaking = false` it
returns `false` regardless of the timers. -/
theorem c1_should_create_challenge (M : Matchmaking) (now : Int) :
    (should_create_challenge M now = true ↔
      (M.allow_matchmaking = true ∧ truthyId M.challenge_id = false ∧
        M.last_game_ended + M.challenge_timeout ≤ now ∧
        M.last_challenge_rate_limited + M.rate_limit_timeout ≤ now))
  ∧ should_create_challenge { M with allow_matchmaking := false } now = false := by
  constructor
  · simp only [should_create_challenge]
    split_ifs with h1 h2 h3 h4 <;> simp_all
  · simp [should_create_challenge]

/-- C6: assuming the client's `cancel` call returns normally,
`cancel_expired_challenges()` clears `active_challenge_id` when a challenge
is active and more than the fixed 25-second expiry has elapsed since
`last_challenge_created`, is a no-op in every other state (in particular
before the expiry), and repeated calls after clearing are no-ops. -/
theorem c6_cancel_expired_challenges (M : Matchmaking) (li : Client) (now : Int)
    (hok : ∀ id, li.cancel id = Except.ok ()) :
    challenge_expire_time = 25
  ∧ (truthyId M.challenge_id = true →
      M.last_challenge_created + challenge_expire_time < now →
      cancel_expired_challenges M li now
        = ({ M with challenge_id := Option.none }, Option.none))
  ∧ (¬(truthyId M.challenge_id = true ∧
        M.last_challenge_created + challenge_expire_time < now) →
      cancel_expired_challenges M li now = (M, Option.none))
  ∧ (∀ now2, cancel_expired_challenges { M with challenge_id := Option.none } li now2
      = ({ M with challenge_id := Option.none }, Option.none)) := by
  refine ⟨rfl, ?_, ?_, ?_⟩
  · intro h1 h2
    simp [cancel_expired_challenges, h1, h2, hok]
  · intro h
    simp only [cancel_expired_challenges, if_neg h]
  · intro now2
    simp [cancel_expired_challenges, truthyId]

/-- A state with an active challenge created at time 0. -/
def c6M : Matchmaking :=
  { variants := ["standard"], username := "me", allow_matchmaking := true,
    challenge_timeout := 1800, rate_limit_timeout := 3600, cfgs := [],
    last_challenge_created := 0, last_game_ended := 0,
    last_challenge_rate_limited := 0, challenge_id := some "abc" }

/-- A well-behaved client: every operation returns normally. -/
def c6li : Client :=
  { challengeCall := fun _ _ => Except.ok (some "ch"),
    cancel := fun _ => Except.ok (),
    get_online_bots := Except.ok [] }

/-- Witness for C6 at a concrete expired state. -/
theorem c6_witness :
    cancel_expired_challenges c6M c6li 30
      = ({ c6M with challenge_id := Option.none }, Option.none) :=
  (c6_cancel_expired_challenges c6M c6li 30 (fun _ => rfl)).2.1 rfl (by decide)

/-- The C8 state: an active challenge `"xyz"`, created at time 0. -/
def c8M : Matchmaking :=
  { variants := ["standard"], username := "me", allow_matchmaking := true,
    challenge_timeout := 1800, rate_limit_timeout := 3600, cfgs := [],
    last_challenge_created := 0, last_game_ended := 0,
    last_challenge_rate_limited := 0, challenge_id := some "xyz" }

/-- A client whose `cancel` call always raises. -/
def c8li : Client :=
  { challengeCall := fun _ _ => Except.ok (some "ch"),
    cancel := fun _ => Except.error Exc.other,
    get_online_bots := Except.ok [] }

/-- C8 counterexample: at time 30 the challenge of `c8M` is expired and a
cancellation is attempted, but the client's `cancel` raises; contrary to
the claim, `active_challenge_id` is NOT cleared — the exception propagates
and the state still holds `some "xyz"` (the `self.challenge_id = None`
assignment on line 39 is never reached). -/
theorem c8_counterexample :
    cancel_expired_challenges c8M c8li 30 = (c8M, some Exc.other)
  ∧ c8M.challenge_id = some "xyz" :=
  ⟨rfl, rfl⟩

/-- C8 amended: when a cancellation is attempted and the client's `cancel`
call raises, the exception propagates out of `cancel_expired_challenges`
and the engine state — in particular `active_challenge_id` — is left
unchanged; the field is cleared only when the cancel call returns. -/
theorem c8_cancel_failure_leaves_state (M : Matchmaking) (li : Client)
    (now : Int) (e : Exc)
    (hact : truthyId M.challenge_id = true)
    (hexp : M.last_challenge_created + challenge_expire_time < now)
    (herr : li.cancel (M.challenge_id.getD "") = Except.error e) :
    cancel_expired_challenges M li now = (M, some e) := by
  simp [cancel_expired_challenges, hact, hexp, herr]

/-- Witness for the amended C8 statement at a concrete input. -/
theorem c8_witness :
    cancel_expired_challenges c8M c8li 30 = (c8M, some Exc.other) :=
  c8_cancel_failure_leaves_state c8M c8li 30 Exc.other rfl (by decide) rfl

/-- C9: in every merged profile produced by the `__init__` loop, every key
other than `opponent_blocklist` resolves to the profile-specific override
when present and to the top-level default otherwise, while
`opponent_blocklist` is always the concatenation of the top-level list and
the profile list. -/
theorem c9_merged_profile (m c d : Dict)
    (h : mergedProfile m c = Except.ok d) :
    (∀ k, k ≠ "opponent_blocklist" →
      d k = match c k with
            | some v => some v
            | Option.none => m k)
  ∧ (∀ a b, dGetD m "opponent_blocklist" (PyVal.list []) = PyVal.list a →
      dGetD c "opponent_blocklist" (PyVal.list []) = PyVal.list b →
      d "opponent_blocklist" = some (PyVal.list (a ++ b))) := by
  unfold mergedProfile at h
  obtain ⟨bl, hbl, hd⟩ := bind_eq_ok h
  have hd' : d = fun k =>
      if k = "opponent_blocklist" then some bl
      else match c k with
           | some v => some v
           | Option.none => m k := by
    simpa [pure, Except.pure, eq_comm] using hd
  constructor
  · intro k hk
    rw [hd']
    simp [hk]
  · intro a b ha hb
    rw [ha, hb] at hbl
    simp [pyAdd, pyIntish] at hbl
    rw [hd']
    simp [hbl]

/-- Top-level matchmaking section with a blocklist entry and a timeout. -/
def c9m : Dict := fun k =>
  if k = "opponent_blocklist" then some (PyVal.list [PyVal.str "x"])
  else if k = "challenge_timeout" then some (PyVal.int 30)
  else Option.none

/-- Profile override with its own blocklist entry and its own timeout. -/
def c9c : Dict := fun k =>
  if k = "opponent_blocklist" then some (PyVal.list [PyVal.str "y"])
  else if k = "challenge_timeout" then some (PyVal.int 5)
  else Option.none

/-- Witness for C9 at concrete dictionaries: the override wins on
`challenge_timeout` and the blocklists concatenate. -/
theorem c9_witness :
    ∃ d, mergedProfile c9m c9c = Except.ok d
      ∧ d "challenge_timeout" = some (PyVal.int 5)
      ∧ d "opponent_blocklist"
          = some (PyVal.list [PyVal.str "x", PyVal.str "y"]) := by
  refine ⟨_, rfl, ?_, ?_⟩
  · exact ((c9_merged_profile c9m c9c _ rfl).1 "challenge_timeout"
      (by decide)).trans rfl
  · exact (c9_merged_profile c9m c9c _ rfl).2 [PyVal.str "x"] [PyVal.str "y"]
      rfl rfl

/-- Random indices all zero: `random.choice` takes the first element. -/
def rnd0 : Rnd := ⟨0, 0, 0, 0, 0, 0, 0, 0⟩

/-- A merged profile as `__init__` produces for an empty override list:
only the mandatory `opponent_blocklist` entry is present. -/
def cfg0 : Dict := fun k =>
  if k = "opponent_blocklist" then some (PyVal.list []) else Option.none

/-- An engine state ready to challenge: matchmaking allowed, no active
challenge, all timers expired, a single default profile. -/
def M0 : Matchmaking :=
  { variants := ["standard"], username := "me", allow_matchmaking := true,
    challenge_timeout := 0, rate_limit_timeout := 3600, cfgs := [cfg0],
    last_challenge_created := 0, last_game_ended := 0,
    last_challenge_rate_limited := -3600, challenge_id := Option.none }

/-- An online bot rated 2000 at bullet with games on record. -/
def b2000 : Bot :=
  { username := "lowbot", disabled := false, tosViolation := false,
    perfs := [("bullet", { rating := some 2000, games := some 10 })] }

/-- An online bot rated 5000 at bullet with games on record. -/
def b5000 : Bot :=
  { username := "highbot", disabled := false, tosViolation := false,
    perfs := [("bullet", { rating := some 5000, games := some 20 })] }

/-- An online bot rated 599 at bullet with games on record. -/
def b599 : Bot :=
  { username := "weakbot", disabled := false, tosViolation := false,
    perfs := [("bullet", { rating := some 599, games := some 10 })] }

/-- A client that accepts any args and returns a challenge id. -/
def c4li : Client :=
  { challengeCall := fun _ _ => Except.ok (some "ch1"),
    cancel := fun _ => Except.ok (),
    get_online_bots := Except.ok [b2000] }

/-- C4 counterexample: with `base_time = 0`, `increment = 0` and no `days`
(a configuration the schema admits), `play_correspondence` is empty and the
`random.choice` on line 63 — which runs BEFORE the `try` block — raises
`IndexError`, which propagates to the caller even though the external
client is entirely well-behaved. -/
theorem c4_counterexample :
    create_challenge c4li rnd0 "opponent" (PyVal.int 0) (PyVal.int 0)
      PyVal.none (PyVal.str "standard") (PyVal.str "casual")
      = Except.error Exc.indexError := rfl

/-- C4 amended: whenever at least one of `days`, `base_time`, `increment`
is truthy (so the clock-style choice list is non-empty), `create_challenge`
returns normally for EVERY behaviour of the external client — any failure
of the `li.challenge` call, including a response without an identifier, is
caught and surfaces as a null id.  Only the all-falsy argument combination
raises (the `IndexError` above). -/
theorem c4_create_challenge_no_raise (li : Client) (rnd : Rnd) (u : String)
    (bt inc d var mode : PyVal)
    (h : pyTruthy d = true ∨ pyTruthy bt = true ∨ pyTruthy inc = true) :
    ∃ v, create_challenge li rnd u bt inc d var mode = Except.ok v := by
  simp only [create_challenge]
  have hne : ((if pyTruthy d then [true] else []) ++
      (if pyTruthy bt || pyTruthy inc then [false] else [])) ≠ [] := by
    rcases h with h | h | h <;> simp [h]
  obtain ⟨corr, hc, -⟩ := pyChoice_ok_of_ne_nil rnd.iCorr hne
  rw [hc, ok_bind]
  cases hcall : li.challengeCall u
      (if corr then
        { rated := pyBEq mode (PyVal.str "rated"), variant := var,
          days := some d, clockLimit := Option.none,
          clockIncrement := Option.none }
      else
        { rated := pyBEq mode (PyVal.str "rated"), variant := var,
          days := Option.none, clockLimit := some bt,
          clockIncrement := some inc }) with
  | ok cid => exact ⟨cid, by simp [hcall, pure, Except.pure]⟩
  | error e => exact ⟨Option.none, by simp [hcall, pure, Except.pure]⟩

/-- Witness for the amended C4 statement: a rate-limit failure of the
client call is swallowed and surfaces as a null id. -/
theorem c4_witness :
    ∃ v, create_challenge
        { challengeCall := fun _ _ => Except.error (Exc.httpError 429),
          cancel := fun _ => Except.ok (),
          get_online_bots := Except.ok [] }
        rnd0 "opponent" (PyVal.int 60) (PyVal.int 2) PyVal.none
        (PyVal.str "standard") (PyVal.str "casual") = Except.ok v :=
  c4_create_challenge_no_raise _ rnd0 "opponent" (PyVal.int 60) (PyVal.int 2)
    PyVal.none (PyVal.str "standard") (PyVal.str "casual")
    (Or.inr (Or.inl rfl))

/-- A client that raises a rate-limit `HTTPError` (status 429) on every
challenge request and is otherwise well-behaved. -/
def c2li : Client :=
  { challengeCall := fun _ _ => Except.error (Exc.httpError 429),
    cancel := fun _ => Except.ok (),
    get_online_bots := Except.ok [b2000] }

/-- C2: a rate-limit rejection of the challenge issuance call never reaches
the `except HTTPError` handler of `challenge()`.  First, calling
`create_challenge` with a 429-raising client swallows the error inside the
blanket `except Exception` of lines 69–78 and returns a null id, so
`last_challenge_rate_limited` cannot be updated by the handler.  Second, in
the full `challenge()` flow the issuance call is not even reached: the
`self.get_time` bound-method call in `choose_opponent` raises `TypeError`
first, the state (including `last_challenge_rate_limited`) is returned
unchanged and the exception propagates. -/
theorem c2_rate_limit_never_recorded :
    create_challenge c2li rnd0 "lowbot" (PyVal.int 60) (PyVal.int 2)
      PyVal.none (PyVal.str "standard") (PyVal.str "casual")
      = Except.ok Option.none
  ∧ challenge M0 c2li rnd0 100 = (M0, some Exc.typeError) :=
  ⟨rfl, rfl⟩

/-- A fully well-behaved client offering one suitable opponent. -/
def c3li : Client :=
  { challengeCall := fun _ _ => Except.ok (some "ch"),
    cancel := fun _ => Except.ok (),
    get_online_bots := Except.ok [b2000] }

/-- C3: `challenge()` does NOT always return normally — even with an
entirely well-behaved external client and a default configuration profile,
it propagates a `TypeError`: `choose_opponent` runs outside the `try`
block and its `self.get_time(cfg, "challenge_initial_time", 60)` call
passes four positional arguments to the three-parameter `get_time`
(declared without `self` on line 80). -/
theorem c3_challenge_propagates :
    challenge M0 c3li rnd0 100 = (M0, some Exc.typeError) := rfl

/-- The scenario profile of C5: standard variant, casual mode, explicit
`opponent_max_rating = 4000`. -/
def c5cfg : Dict := fun k =>
  if k = "opponent_blocklist" then some (PyVal.list [])
  else if k = "challenge_mode" then some (PyVal.str "casual")
  else if k = "challenge_variant" then some (PyVal.str "standard")
  else if k = "opponent_max_rating" then some (PyVal.int 4000)
  else Option.none

/-- A client offering the two scenario candidates rated 2000 and 5000. -/
def c5li : Client :=
  { challengeCall := fun _ _ => Except.ok (some "ch"),
    cancel := fun _ => Except.ok (),
    get_online_bots := Except.ok [b2000, b5000] }

/-- The parameters lines 89–117 are written to resolve for `c5cfg`
(casual, standard, 60+2 giving the bullet bucket, bounds 600/4000, ToS
violations allowed by default). -/
def c5ps : ResolvedParams :=
  { mode := PyVal.str "casual", variant := PyVal.str "standard",
    base_time := PyVal.int 60, increment := PyVal.int 2, days := PyVal.none,
    game_type := PyVal.str "bullet", min_rating := PyVal.int 600,
    max_rating := PyVal.int 4000, allow_tos_violation := PyVal.bool true }

/-- C5: on the claim's scenario (candidates rated 2000 and 5000,
`opponent_max_rating = 4000`) `choose_opponent` does not return the
2000-rated candidate — it raises `TypeError` at the `self.get_time`
bound-method call before any filtering.  The filter predicate itself
(lines 119–126), evaluated at the parameters the code intends to resolve,
does accept the 2000-rated candidate and reject the 5000-rated one. -/
theorem c5_choose_opponent_raises :
    choose_opponent M0 c5li rnd0 c5cfg = Except.error Exc.typeError
  ∧ is_suitable_opponent "me" c5cfg c5ps b2000 = Except.ok true
  ∧ is_suitable_opponent "me" c5cfg c5ps b5000 = Except.ok false :=
  ⟨rfl, rfl, rfl⟩

/-- The C7 profile: `challenge_initial_time` configured as a two-element
list, `challenge_increment` a single value, `challenge_days` absent. -/
def c7cfg : Dict := fun k =>
  if k = "opponent_blocklist" then some (PyVal.list [])
  else if k = "challenge_initial_time"
    then some (PyVal.list [PyVal.int 60, PyVal.int 120])
  else if k = "challenge_increment" then some (PyVal.int 2)
  else Option.none

/-- C7: the body of `get_time` (lines 80–86) does resolve a single
configured value to itself, a configured list to one of its elements
(depending on the draw), and an unconfigured `challenge_days` to `None` —
but in `choose_opponent` these resolutions never happen: the bound-method
call `self.get_time(cfg, "challenge_initial_time", 60)` raises `TypeError`
(missing `self` parameter), so `resolveParams` fails there. -/
theorem c7_get_time_resolution :
    get_time 0 c7cfg "challenge_initial_time" (PyVal.int 60)
      = Except.ok (PyVal.int 60)
  ∧ get_time 1 c7cfg "challenge_initial_time" (PyVal.int 60)
      = Except.ok (PyVal.int 120)
  ∧ get_time 0 c7cfg "challenge_increment" (PyVal.int 2)
      = Except.ok (PyVal.int 2)
  ∧ get_time 0 c7cfg "challenge_days" PyVal.none = Except.ok PyVal.none
  ∧ resolveParams M0 rnd0 c7cfg = Except.error Exc.typeError :=
  ⟨rfl, rfl, rfl, rfl, rfl⟩

/-- The C10 profile: `opponent_min_rating` explicitly configured as the
falsy value 0. -/
def c10cfg : Dict := fun k =>
  if k = "opponent_blocklist" then some (PyVal.list [])
  else if k = "challenge_mode" then some (PyVal.str "casual")
  else if k = "challenge_variant" then some (PyVal.str "standard")
  else if k = "opponent_min_rating" then some (PyVal.int 0)
  else Option.none

/-- A client offering only the 599-rated candidate. -/
def c10li : Client :=
  { challengeCall := fun _ _ => Except.ok (some "ch"),
    cancel := fun _ => Except.ok (),
    get_online_bots := Except.ok [b599] }

/-- The parameters lines 89–117 are written to resolve for `c10cfg`: the
falsy configured `opponent_min_rating = 0` falls back to the hardcoded 600
through `cfg.get("opponent_min_rating") or 600`. -/
def c10ps : ResolvedParams :=
  { mode := PyVal.str "casual", variant := PyVal.str "standard",
    base_time := PyVal.int 60, increment := PyVal.int 2, days := PyVal.none,
    game_type := PyVal.str "bullet", min_rating := PyVal.int 600,
    max_rating := PyVal.int 4000, allow_tos_violation := PyVal.bool true }

/-- C10: the `or`-defaulting expressions of lines 115–116 indeed resolve an
explicitly configured 0 — and an absent key — to the hardcoded bounds 600
and 4000, and the filter at those bounds rejects a 599-rated candidate;
but `choose_opponent` itself never applies this filter: it raises
`TypeError` at the `self.get_time` bound-method call first. -/
theorem c10_rating_defaults :
    pyOr (dGet c10cfg "opponent_min_rating") (PyVal.int 600) = PyVal.int 600
  ∧ pyOr (dGet cfg0 "opponent_min_rating") (PyVal.int 600) = PyVal.int 600
  ∧ pyOr (dGet cfg0 "opponent_max_rating") (PyVal.int 4000) = PyVal.int 4000
  ∧ is_suitable_opponent "me" c10cfg c10ps b599 = Except.ok false
  ∧ choose_opponent M0 c10li rnd0 c10cfg = Except.error Exc.typeError :=
  ⟨rfl, rfl, rfl, rfl, rfl⟩

end LichessBot
